import Mathlib

/-!
Verification of the adaptive_lighting integration (custom_components/
adaptive_lighting/__init__.py) against its natural-language specification.

The file embeds, as executable Lean definitions:
  * a universe `JValue` of configuration values (YAML scalars, lists,
    dicts, plus the normalized duration/time objects the validators emit);
  * the voluptuous / homeassistant validator combinators the source's
    CONFIG_SCHEMA composes (vol.Coerce(int), vol.Range, cv.string,
    cv.boolean, cv.entity_id(s), cv.time_period, cv.time, VALID_TRANSITION);
  * CONFIG_SCHEMA itself (the per-field table `domainFields`, the mapping
    validator `processFields`, the domain schema `validateDomain`, and the
    top-level schema `validateConfig` with extra keys allowed);
  * `async_setup` and the `_SUPPORT_OPTS` capability table;
  * the PhotometricCurve of spec section 4.2 (the curve itself lives in
    switch.py, which is not part of the staged sources, so it is modelled
    from the spec's words over exact rationals).
-/

/-- A configuration value: YAML scalars (integers, decimal numbers as exact
rationals, strings, booleans), lists, string-keyed dicts, and the normalized
objects validators produce (`jdur` a timedelta in whole seconds, `jtime` a
time of day in seconds after midnight). Floating-point rounding is not
modelled: decimal numerals are carried exactly. -/
inductive JValue where
  | jint : Int → JValue
  | jrat : ℚ → JValue
  | jstr : String → JValue
  | jbool : Bool → JValue
  | jlist : List JValue → JValue
  | jdur : Int → JValue
  | jtime : Int → JValue
  | jdict : List (String × JValue) → JValue

/-- First-match association-list lookup, the dict access the schema model
uses (a Python dict has unique keys, so first-match is exact). -/
def lookupKey (k : String) : List (String × JValue) → Option JValue
  | [] => none
  | (k2, v) :: rest => if k2 = k then some v else lookupKey k rest

/-- Decimal digit run to a number: none when empty or a non-digit occurs. -/
def natDigits (cs : List Char) : Option Nat :=
  if cs.isEmpty then none
  else if cs.all Char.isDigit then
    some (cs.foldl (fun a c => a * 10 + (c.toNat - 48)) 0)
  else none

/-- Python `int(s)` on a string: optional surrounding whitespace, one
optional sign, then decimal digits (underscore separators and non-decimal
bases are not modelled; no claim exercises them). -/
def pyIntOfString (s : String) : Option Int :=
  let cs := ((s.toList.dropWhile Char.isWhitespace).reverse.dropWhile
    Char.isWhitespace).reverse
  match cs with
  | '+' :: rest => (natDigits rest).map Int.ofNat
  | '-' :: rest => (natDigits rest).map (fun n => -(n : Int))
  | rest => (natDigits rest).map Int.ofNat

/-- Python `int()` truncation of a rational toward zero (`int(2.7) = 2`,
`int(-2.7) = -2`). -/
def pyTrunc (q : ℚ) : Int :=
  Int.tdiv q.num (Int.ofNat q.den)

/-- Python `int(value)` as `vol.Coerce(int)` applies it: integers pass
through, booleans are the integers 0/1, numerals truncate toward zero,
strings parse as decimal integers; anything else raises, i.e. fails. -/
def coerce_int : JValue → Option Int
  | .jint n => some n
  | .jbool b => some (if b then 1 else 0)
  | .jrat q => some (pyTrunc q)
  | .jstr s => pyIntOfString s
  | _ => none

/-- The source's `vol.All(vol.Coerce(int), vol.Range(min=lo, max=hi))`:
coerce to an integer, then accept exactly the integers of the closed range
[lo, hi] (voluptuous Range bounds are inclusive by default). -/
def coerce_int_range (lo hi : Int) (v : JValue) : Option JValue :=
  match coerce_int v with
  | some n => if lo ≤ n ∧ n ≤ hi then some (.jint n) else none
  | none => none

/-- Python `float(s)` on a plain decimal string: optional whitespace, one
optional sign, digits with at most one point (scientific notation is not
modelled; no claim exercises it). -/
def pyFloatOfString (s : String) : Option ℚ :=
  let t0 := s.trim
  let sign : ℚ := if t0.startsWith "-" then -1 else 1
  let t := if t0.startsWith "-" || t0.startsWith "+" then t0.drop 1 else t0
  match t.splitOn "." with
  | [a] => (a.toNat?).map (fun n => sign * (n : ℚ))
  | [a, b] =>
    if (a ≠ "" || b ≠ "") && a.all Char.isDigit && b.all Char.isDigit then
      some (sign * ((a.toNat?.getD 0 : ℚ) + (b.toNat?.getD 0 : ℚ) / 10 ^ b.length))
    else none
  | _ => none

/-- Python `float(value)` as `vol.Coerce(float)` applies it. -/
def coerce_float : JValue → Option ℚ
  | .jint n => some (n : ℚ)
  | .jrat q => some q
  | .jbool b => some (if b then 1 else 0)
  | .jstr s => pyFloatOfString s
  | _ => none

/-- The light platform's `VALID_TRANSITION`:
`vol.All(vol.Coerce(float), vol.Clamp(min=0, max=6553))` — coerce to a
number, then clamp (not reject) into [0, 6553]. -/
def VALID_TRANSITION (v : JValue) : Option JValue :=
  (coerce_float v).map (fun q => .jrat (max 0 (min q 6553)))

/-- Homeassistant `cv.string`: rejects lists and dicts, stringifies
everything else (`str()` of the value). -/
def cv_string : JValue → Option JValue
  | .jlist _ => none
  | .jdict _ => none
  | .jstr s => some (.jstr s)
  | .jint n => some (.jstr (toString n))
  | .jrat q => some (.jstr (toString q))
  | .jbool b => some (.jstr (if b then "True" else "False"))
  | .jdur n => some (.jstr (toString n))
  | .jtime n => some (.jstr (toString n))

/-- Homeassistant `cv.boolean`: booleans pass through, the usual yes/no
strings convert, a number converts to `value != 0`, anything else fails. -/
def cv_boolean : JValue → Option JValue
  | .jbool b => some (.jbool b)
  | .jstr s =>
    let l := s.toLower
    if l = "1" || l = "true" || l = "yes" || l = "on" || l = "enable" then
      some (.jbool true)
    else if l = "0" || l = "false" || l = "no" || l = "off" || l = "disable" then
      some (.jbool false)
    else none
  | .jint n => some (.jbool (n ≠ 0))
  | .jrat q => some (.jbool (q ≠ 0))
  | _ => none

/-- Homeassistant's entity-id shape check: `domain.object_id`, exactly one
dot with nonempty parts. -/
def valid_entity_id (s : String) : Bool :=
  match s.splitOn "." with
  | [d, o] => d ≠ "" && o ≠ ""
  | _ => false

/-- Homeassistant `cv.entity_id`: stringify, lowercase, check the
`domain.object_id` shape. -/
def cv_entity_id (v : JValue) : Option JValue :=
  match cv_string v with
  | some (.jstr s) =>
    let l := s.toLower
    if valid_entity_id l then some (.jstr l) else none
  | _ => none

/-- Homeassistant `cv.entity_ids`: a comma-separated string is split and
trimmed, a list is taken as is, a lone value is wrapped; every element must
be a valid entity id. -/
def cv_entity_ids (v : JValue) : Option JValue :=
  match v with
  | .jstr s =>
    ((s.splitOn ",").mapM (fun part => cv_entity_id (.jstr part.trim))).map .jlist
  | .jlist xs => (xs.mapM cv_entity_id).map .jlist
  | w => (cv_entity_id w).map (fun e => .jlist [e])

/-- Time-period string `[-]H:MM` or `[-]H:MM:SS` to signed whole seconds. -/
def parseTimePeriodStr (s : String) : Option Int :=
  let sign : Int := if s.startsWith "-" then -1 else 1
  let t := if s.startsWith "-" then s.drop 1 else s
  match t.splitOn ":" with
  | [h, m] => do
    let hh ← h.toNat?
    let mm ← m.toNat?
    if mm < 60 then some (sign * ((hh : Int) * 3600 + mm * 60)) else none
  | [h, m, sec] => do
    let hh ← h.toNat?
    let mm ← m.toNat?
    let ss ← sec.toNat?
    if mm < 60 && ss < 60 then
      some (sign * ((hh : Int) * 3600 + mm * 60 + ss))
    else none
  | _ => none

/-- Homeassistant `cv.time_period`: a `H:MM[:SS]` string, a number of
seconds, or an existing timedelta, normalized to a timedelta (here: whole
seconds; sub-second fractions truncate, which no claim exercises). -/
def cv_time_period : JValue → Option JValue
  | .jstr s => (parseTimePeriodStr s).map .jdur
  | .jint n => some (.jdur n)
  | .jrat q => some (.jdur (pyTrunc q))
  | .jdur n => some (.jdur n)
  | _ => none

/-- Homeassistant `cv.time`: a `HH:MM[:SS]` string or an existing time
object, as seconds after midnight. -/
def cv_time : JValue → Option JValue
  | .jstr s =>
    match s.splitOn ":" with
    | [h, m] => do
      let hh ← h.toNat?
      let mm ← m.toNat?
      if hh < 24 && mm < 60 then some (.jtime ((hh : Int) * 3600 + mm * 60)) else none
    | [h, m, sec] => do
      let hh ← h.toNat?
      let mm ← m.toNat?
      let ss ← sec.toNat?
      if hh < 24 && mm < 60 && ss < 60 then
        some (.jtime ((hh : Int) * 3600 + mm * 60 + ss))
      else none
    | _ => none
  | .jtime t => some (.jtime t)
  | _ => none

/-- The source's `vol.All(cv.ensure_list, [cv.string])`: wrap a lone value
into a one-element list, then stringify every element. -/
def cv_string_list : JValue → Option JValue
  | .jlist xs => (xs.mapM cv_string).map .jlist
  | v => (cv_string v).map (fun w => .jlist [w])

/-- The integration's domain key (`DOMAIN` of const.py; the repository and
its manifest name the integration adaptive_lighting). -/
def DOMAIN : String := "adaptive_lighting"

def CONF_NAME : String := "name"

def CONF_LIGHTS : String := "lights"

def CONF_DISABLE_BRIGHTNESS_ADJUST : String := "disable_brightness_adjust"

def CONF_DISABLE_ENTITY : String := "disable_entity"

def CONF_DISABLE_STATE : String := "disable_state"

def CONF_INITIAL_TRANSITION : String := "initial_transition"

def CONF_INTERVAL : String := "interval"

def CONF_MAX_BRIGHTNESS : String := "max_brightness"

def CONF_MAX_COLOR_TEMP : String := "max_color_temp"

def CONF_MIN_BRIGHTNESS : String := "min_brightness"

def CONF_MIN_COLOR_TEMP : String := "min_color_temp"

def CONF_ONLY_ONCE : String := "only_once"

def CONF_SLEEP_BRIGHTNESS : String := "sleep_brightness"

def CONF_SLEEP_COLOR_TEMP : String := "sleep_color_temp"

def CONF_SLEEP_ENTITY : String := "sleep_entity"

def CONF_SLEEP_STATE : String := "sleep_state"

def CONF_SUNRISE_OFFSET : String := "sunrise_offset"

def CONF_SUNRISE_TIME : String := "sunrise_time"

def CONF_SUNSET_OFFSET : String := "sunset_offset"

def CONF_SUNSET_TIME : String := "sunset_time"

def CONF_TRANSITION : String := "transition"

/-- Modelled from the spec: the `DEFAULT_*` constants live in const.py,
which is not among the staged sources. The spec (section 6) fixes only the
interval default, "interval (duration, default 90s)"; the other defaults
are given plausible in-range values, and no claim depends on them (every
counterexample and witness below supplies its fields explicitly or only
uses the interval default). Defaults are stored already normalized, as
voluptuous inserts a default verbatim without running the value's
validator on it. -/
def DEFAULT_INTERVAL : JValue := .jdur 90

def DEFAULT_NAME : JValue := .jstr "default"

def DEFAULT_LIGHTS : JValue := .jlist []

def DEFAULT_DISABLE_BRIGHTNESS_ADJUST : JValue := .jbool false

def DEFAULT_INITIAL_TRANSITION : JValue := .jrat 1

def DEFAULT_MAX_BRIGHTNESS : JValue := .jint 100

def DEFAULT_MAX_COLOR_TEMP : JValue := .jint 5500

def DEFAULT_MIN_BRIGHTNESS : JValue := .jint 1

def DEFAULT_MIN_COLOR_TEMP : JValue := .jint 2500

def DEFAULT_ONLY_ONCE : JValue := .jbool false

def DEFAULT_SLEEP_BRIGHTNESS : JValue := .jint 1

def DEFAULT_SLEEP_COLOR_TEMP : JValue := .jint 1000

def DEFAULT_SUNRISE_OFFSET : JValue := .jdur 0

def DEFAULT_SUNSET_OFFSET : JValue := .jdur 0

def DEFAULT_TRANSITION : JValue := .jrat 60

/-- One key of a voluptuous mapping schema: its name, whether it is
`vol.Required`, its default (none when the marker has no default), and its
value validator. -/
structure FieldSpec where
  key : String
  required : Bool
  default : Option JValue
  validator : JValue → Option JValue

/-- The inner mapping of the source's CONFIG_SCHEMA, field for field in
source order (lines 132-184): `name` is Required with a default, everything
else Optional; the four bound fields and the two sleep fields use
`vol.All(vol.Coerce(int), vol.Range(...))` with the ranges [1, 100] and
[1000, 10000]. -/
def domainFields : List FieldSpec := [
  ⟨CONF_NAME, true, some DEFAULT_NAME, cv_string⟩,
  ⟨CONF_LIGHTS, false, some DEFAULT_LIGHTS, cv_entity_ids⟩,
  ⟨CONF_DISABLE_BRIGHTNESS_ADJUST, false, some DEFAULT_DISABLE_BRIGHTNESS_ADJUST,
    cv_boolean⟩,
  ⟨CONF_DISABLE_ENTITY, false, none, cv_entity_id⟩,
  ⟨CONF_DISABLE_STATE, false, none, cv_string_list⟩,
  ⟨CONF_INITIAL_TRANSITION, false, some DEFAULT_INITIAL_TRANSITION, VALID_TRANSITION⟩,
  ⟨CONF_INTERVAL, false, some DEFAULT_INTERVAL, cv_time_period⟩,
  ⟨CONF_MAX_BRIGHTNESS, false, some DEFAULT_MAX_BRIGHTNESS, coerce_int_range 1 100⟩,
  ⟨CONF_MAX_COLOR_TEMP, false, some DEFAULT_MAX_COLOR_TEMP,
    coerce_int_range 1000 10000⟩,
  ⟨CONF_MIN_BRIGHTNESS, false, some DEFAULT_MIN_BRIGHTNESS, coerce_int_range 1 100⟩,
  ⟨CONF_MIN_COLOR_TEMP, false, some DEFAULT_MIN_COLOR_TEMP,
    coerce_int_range 1000 10000⟩,
  ⟨CONF_ONLY_ONCE, false, some DEFAULT_ONLY_ONCE, cv_boolean⟩,
  ⟨CONF_SLEEP_BRIGHTNESS, false, some DEFAULT_SLEEP_BRIGHTNESS,
    coerce_int_range 1 100⟩,
  ⟨CONF_SLEEP_COLOR_TEMP, false, some DEFAULT_SLEEP_COLOR_TEMP,
    coerce_int_range 1000 10000⟩,
  ⟨CONF_SLEEP_ENTITY, false, none, cv_entity_id⟩,
  ⟨CONF_SLEEP_STATE, false, none, cv_string_list⟩,
  ⟨CONF_SUNRISE_OFFSET, false, some DEFAULT_SUNRISE_OFFSET, cv_time_period⟩,
  ⟨CONF_SUNRISE_TIME, false, none, cv_time⟩,
  ⟨CONF_SUNSET_OFFSET, false, some DEFAULT_SUNSET_OFFSET, cv_time_period⟩,
  ⟨CONF_SUNSET_TIME, false, none, cv_time⟩,
  ⟨CONF_TRANSITION, false, some DEFAULT_TRANSITION, VALID_TRANSITION⟩]

/-- Voluptuous mapping validation over a field table: a present key must
pass its validator, an absent key with a default gets the default, an
absent Required key without a default fails, an absent Optional key without
a default is simply left out of the output. -/
def processFields (fields : List FieldSpec) (doc : List (String × JValue)) :
    Option (List (String × JValue)) :=
  match fields with
  | [] => some []
  | f :: fs =>
    match lookupKey f.key doc with
    | some v =>
      match f.validator v with
      | some v2 => (processFields fs doc).map (fun out => (f.key, v2) :: out)
      | none => none
    | none =>
      match f.default with
      | some d => (processFields fs doc).map (fun out => (f.key, d) :: out)
      | none => if f.required then none else processFields fs doc

/-- The inner `vol.Schema({...})` of CONFIG_SCHEMA: no `extra=` argument is
given for it, so unknown keys are rejected (PREVENT_EXTRA), and the known
keys validate per `domainFields`. -/
def validateDomain (doc : List (String × JValue)) : Option (List (String × JValue)) :=
  if doc.all (fun kv => domainFields.any (fun f => f.key = kv.1)) then
    processFields domainFields doc
  else none

/-- The source's CONFIG_SCHEMA (`vol.Schema({DOMAIN: vol.Schema({...})},
extra=vol.ALLOW_EXTRA)`): the top level keeps every key other than DOMAIN
untouched (ALLOW_EXTRA, DOMAIN itself optional), and the DOMAIN key's
value, when present, must be a dict that validates per the inner schema. -/
def validateConfig (doc : List (String × JValue)) :
    Option (List (String × JValue)) :=
  match lookupKey DOMAIN doc with
  | none => some doc
  | some (.jdict d) =>
    (validateDomain d).map
      (fun out => (DOMAIN, .jdict out) :: doc.filter (fun kv => kv.1 != DOMAIN))
  | some _ => none

/-- The host calls `async_setup` observably does: none, or scheduling the
config-entry import flow with the domain section's data. -/
inductive SetupAction where
  | createImportFlowTask : JValue → SetupAction

/-- The source's `async_setup(hass, config)` (lines 187-196): when DOMAIN
is a key of `config` it creates the import-flow task with `config[DOMAIN]`
as data, and it returns True in every case. -/
def async_setup (config : List (String × JValue)) : Bool × List SetupAction :=
  match lookupKey DOMAIN config with
  | some d => (true, [SetupAction.createImportFlowTask d])
  | none => (true, [])

/-- The light platform's support bitmask constants consumed by the source
(values as the host defines them). -/
def SUPPORT_BRIGHTNESS : Nat := 1

def SUPPORT_COLOR_TEMP : Nat := 2

def SUPPORT_COLOR : Nat := 16

def SUPPORT_TRANSITION : Nat := 32

/-- The source's `_SUPPORT_OPTS` table (lines 121-126), entry for entry. -/
def _SUPPORT_OPTS : List (String × Nat) := [
  ("brightness", SUPPORT_BRIGHTNESS),
  ("color_temp", SUPPORT_COLOR_TEMP),
  ("color", SUPPORT_COLOR),
  ("transition", SUPPORT_TRANSITION)]

/-- Modelled from the spec: the PhotometricCurve (spec section 4.2) lives
in switch.py, which is not among the staged sources. Times and values are
exact rationals. Linear interpolation between two knots, `lerp x0 x1 y0 y1
t = y0 + (y1 - y0) * (t - x0) / (x1 - x0)`; on a zero-length interval the
rational division by zero yields 0 and the value collapses to the nearer
anchor's value `y0`, the spec's stated edge case. -/
def lerp (x0 x1 y0 y1 t : ℚ) : ℚ :=
  y0 + (y1 - y0) * (t - x0) / (x1 - x0)

/-- Clamp `v` into [lo, hi], the spec's output clamping. -/
def clampQ (lo hi v : ℚ) : ℚ :=
  max lo (min v hi)

/-- Modelled from the spec: the bound fields of the validated SwitchConfig
that the curve consumes (spec section 3). -/
structure CurveConfig where
  min_color_temp : ℚ
  max_color_temp : ℚ
  min_brightness : ℚ
  max_brightness : ℚ

/-- Modelled from the spec: the SunAnchors of one 24h cycle (spec section
3), as timestamps with solar_midnight before solar_noon before the next
solar_midnight. -/
structure SunAnchors where
  solar_midnight : ℚ
  solar_noon : ℚ
  next_solar_midnight : ℚ

/-- Modelled from the spec: computed color temperature (spec sections 4.2
and 8) — piecewise-linear with knots min_color_temp at solar_midnight and
max_color_temp at solar_noon, back down to min_color_temp at the next
solar_midnight, the output clamped to [min_color_temp, max_color_temp]. -/
def color_temperature (cfg : CurveConfig) (a : SunAnchors) (t : ℚ) : ℚ :=
  clampQ cfg.min_color_temp cfg.max_color_temp
    (if t ≤ a.solar_noon then
      lerp a.solar_midnight a.solar_noon cfg.min_color_temp cfg.max_color_temp t
    else
      lerp a.solar_noon a.next_solar_midnight cfg.max_color_temp cfg.min_color_temp t)

/-- Modelled from the spec: computed brightness (spec sections 4.2 and 8) —
dimmest anchor at solar_midnight, brightest at solar_noon, clamped to
[min_brightness, max_brightness]. -/
def brightness_pct (cfg : CurveConfig) (a : SunAnchors) (t : ℚ) : ℚ :=
  clampQ cfg.min_brightness cfg.max_brightness
    (if t ≤ a.solar_noon then
      lerp a.solar_midnight a.solar_noon cfg.min_brightness cfg.max_brightness t
    else
      lerp a.solar_noon a.next_solar_midnight cfg.max_brightness cfg.min_brightness t)

/-- A domain section whose bound fields are each inside their own range
but with min_brightness > max_brightness and min_color_temp >
max_color_temp. -/
def badBoundsSection : List (String × JValue) := [
  (CONF_MIN_BRIGHTNESS, .jint 90), (CONF_MAX_BRIGHTNESS, .jint 10),
  (CONF_MIN_COLOR_TEMP, .jint 9000), (CONF_MAX_COLOR_TEMP, .jint 2000)]

theorem lookupKey_eq_none_of_forall (k : String) (l : List (String × JValue))
    (h : ∀ kv ∈ l, kv.1 ≠ k) : lookupKey k l = none := by
  induction l with
  | nil => rfl
  | cons hd tl ih =>
    simp only [lookupKey]
    rw [if_neg (h hd (List.mem_cons_self _ _))]
    exact ih fun kv hm => h kv (List.mem_cons_of_mem _ hm)

theorem coerce_int_range_eq_some (lo hi : Int) (v u : JValue)
    (h : coerce_int_range lo hi v = some u) :
    ∃ n, u = .jint n ∧ coerce_int v = some n ∧ lo ≤ n ∧ n ≤ hi := by
  cases hc : coerce_int v with
  | none => simp [coerce_int_range, hc] at h
  | some n =>
    by_cases hr : lo ≤ n ∧ n ≤ hi
    · simp only [coerce_int_range, hc, if_pos hr] at h
      exact ⟨n, (Option.some.inj h).symm, rfl, hr.1, hr.2⟩
    · simp [coerce_int_range, hc, if_neg hr] at h

theorem processFields_present (fields : List FieldSpec)
    (doc out : List (String × JValue)) (h : processFields fields doc = some out) :
    ∀ f ∈ fields, ∀ v, lookupKey f.key doc = some v → (f.validator v).isSome := by
  induction fields generalizing out with
  | nil => intro f hf; exact absurd hf (List.not_mem_nil f)
  | cons g fs ih =>
    intro f hf v hv
    rcases List.mem_cons.mp hf with he | hmem
    · subst he
      cases hgv : f.validator v with
      | none => simp [processFields, hv, hgv] at h
      | some w2 => simp [hgv]
    · cases hg : lookupKey g.key doc with
      | some w =>
        cases hgv : g.validator w with
        | none => simp [processFields, hg, hgv] at h
        | some w2 =>
          simp only [processFields, hg, hgv] at h
          obtain ⟨out2, h2, -⟩ := Option.map_eq_some'.mp h
          exact ih out2 h2 f hmem v hv
      | none =>
        cases hd : g.default with
        | some d =>
          simp only [processFields, hg, hd] at h
          obtain ⟨out2, h2, -⟩ := Option.map_eq_some'.mp h
          exact ih out2 h2 f hmem v hv
        | none =>
          cases hr : g.required with
          | true => simp [processFields, hg, hd, hr] at h
          | false =>
            simp only [processFields, hg, hd, hr, if_neg] at h
            exact ih out h f hmem v hv

theorem processFields_default (fields : List FieldSpec)
    (doc out : List (String × JValue))
    (hnd : (fields.map FieldSpec.key).Nodup)
    (h : processFields fields doc = some out) :
    ∀ f ∈ fields, ∀ d, f.default = some d → lookupKey f.key doc = none →
      lookupKey f.key out = some d := by
  induction fields generalizing out with
  | nil => intro f hf; exact absurd hf (List.not_mem_nil f)
  | cons g fs ih =>
    intro f hf d hd hnone
    have hnd2 : (fs.map FieldSpec.key).Nodup := (List.nodup_cons.mp hnd).2
    rcases List.mem_cons.mp hf with he | hmem
    · subst he
      simp only [processFields, hnone, hd] at h
      obtain ⟨out2, -, hout⟩ := Option.map_eq_some'.mp h
      rw [← hout]
      simp [lookupKey]
    · have hkey : g.key ≠ f.key := by
        intro he
        exact (List.nodup_cons.mp hnd).1 (he ▸ List.mem_map_of_mem FieldSpec.key hmem)
      cases hg : lookupKey g.key doc with
      | some w =>
        cases hgv : g.validator w with
        | none => simp [processFields, hg, hgv] at h
        | some w2 =>
          simp only [processFields, hg, hgv] at h
          obtain ⟨out2, h2, hout⟩ := Option.map_eq_some'.mp h
          rw [← hout]
          simp only [lookupKey, if_neg hkey]
          exact ih out2 hnd2 h2 f hmem d hd hnone
      | none =>
        cases hgd : g.default with
        | some d2 =>
          simp only [processFields, hg, hgd] at h
          obtain ⟨out2, h2, hout⟩ := Option.map_eq_some'.mp h
          rw [← hout]
          simp only [lookupKey, if_neg hkey]
          exact ih out2 hnd2 h2 f hmem d hd hnone
        | none =>
          cases hr : g.required with
          | true => simp [processFields, hg, hgd, hr] at h
          | false =>
            simp only [processFields, hg, hgd, hr, if_neg] at h
            exact ih out hnd2 h f hmem d hd hnone

theorem le_clampQ (lo hi v : ℚ) : lo ≤ clampQ lo hi v :=
  le_max_left lo (min v hi)

theorem clampQ_le (lo hi v : ℚ) (h : lo ≤ hi) : clampQ lo hi v ≤ hi :=
  max_le h (min_le_right v hi)

theorem clampQ_mono (lo hi v1 v2 : ℚ) (h : v1 ≤ v2) :
    clampQ lo hi v1 ≤ clampQ lo hi v2 :=
  max_le_max le_rfl (min_le_min h le_rfl)

theorem lerp_mono (x0 x1 y0 y1 t1 t2 : ℚ) (hx : x0 < x1) (hy : y0 ≤ y1)
    (ht : t1 ≤ t2) : lerp x0 x1 y0 y1 t1 ≤ lerp x0 x1 y0 y1 t2 := by
  unfold lerp
  have hx0 : (0 : ℚ) < x1 - x0 := by linarith
  have h1 : (y1 - y0) * (t1 - x0) ≤ (y1 - y0) * (t2 - x0) :=
    mul_le_mul_of_nonneg_left (by linarith) (by linarith)
  have h2 := (div_le_div_iff_of_pos_right hx0).mpr h1
  linarith

theorem lerp_anti (x0 x1 y0 y1 t1 t2 : ℚ) (hx : x0 < x1) (hy : y1 ≤ y0)
    (ht : t1 ≤ t2) : lerp x0 x1 y0 y1 t2 ≤ lerp x0 x1 y0 y1 t1 := by
  unfold lerp
  have hx0 : (0 : ℚ) < x1 - x0 := by linarith
  have h1 : (y1 - y0) * (t2 - x0) ≤ (y1 - y0) * (t1 - x0) :=
    mul_le_mul_of_nonpos_left (by linarith) (by linarith)
  have h2 := (div_le_div_iff_of_pos_right hx0).mpr h1
  linarith

/-- C1 (amended): CONFIG_SCHEMA validates each bound field only against its
own fixed range — a supplied min_brightness or max_brightness must coerce
to an integer in [1, 100] and a supplied min_color_temp or max_color_temp
to one in [1000, 10000] — and performs no cross-field min ≤ max comparison,
so a configuration whose bounds are each individually in range is accepted
even when min > max. -/
theorem bounds_validated_independently (d out : List (String × JValue))
    (hval : validateDomain d = some out) :
    (∀ v, lookupKey CONF_MIN_BRIGHTNESS d = some v →
      ∃ n, coerce_int v = some n ∧ 1 ≤ n ∧ n ≤ 100) ∧
    (∀ v, lookupKey CONF_MAX_BRIGHTNESS d = some v →
      ∃ n, coerce_int v = some n ∧ 1 ≤ n ∧ n ≤ 100) ∧
    (∀ v, lookupKey CONF_MIN_COLOR_TEMP d = some v →
      ∃ n, coerce_int v = some n ∧ 1000 ≤ n ∧ n ≤ 10000) ∧
    (∀ v, lookupKey CONF_MAX_COLOR_TEMP d = some v →
      ∃ n, coerce_int v = some n ∧ 1000 ≤ n ∧ n ≤ 10000) := by
  have hp : processFields domainFields d = some out := by
    unfold validateDomain at hval
    split at hval
    · exact hval
    · exact Option.noConfusion hval
  have hpre := processFields_present domainFields d out hp
  refine ⟨?_, ?_, ?_, ?_⟩
  · intro v hv
    have hs := hpre ⟨CONF_MIN_BRIGHTNESS, false, some DEFAULT_MIN_BRIGHTNESS,
      coerce_int_range 1 100⟩ (by simp [domainFields]) v hv
    obtain ⟨u, hu⟩ := Option.isSome_iff_exists.mp hs
    obtain ⟨n, -, hcn, hl, hr⟩ := coerce_int_range_eq_some 1 100 v u hu
    exact ⟨n, hcn, hl, hr⟩
  · intro v hv
    have hs := hpre ⟨CONF_MAX_BRIGHTNESS, false, some DEFAULT_MAX_BRIGHTNESS,
      coerce_int_range 1 100⟩ (by simp [domainFields]) v hv
    obtain ⟨u, hu⟩ := Option.isSome_iff_exists.mp hs
    obtain ⟨n, -, hcn, hl, hr⟩ := coerce_int_range_eq_some 1 100 v u hu
    exact ⟨n, hcn, hl, hr⟩
  · intro v hv
    have hs := hpre ⟨CONF_MIN_COLOR_TEMP, false, some DEFAULT_MIN_COLOR_TEMP,
      coerce_int_range 1000 10000⟩ (by simp [domainFields]) v hv
    obtain ⟨u, hu⟩ := Option.isSome_iff_exists.mp hs
    obtain ⟨n, -, hcn, hl, hr⟩ := coerce_int_range_eq_some 1000 10000 v u hu
    exact ⟨n, hcn, hl, hr⟩
  · intro v hv
    have hs := hpre ⟨CONF_MAX_COLOR_TEMP, false, some DEFAULT_MAX_COLOR_TEMP,
      coerce_int_range 1000 10000⟩ (by simp [domainFields]) v hv
    obtain ⟨u, hu⟩ := Option.isSome_iff_exists.mp hs
    obtain ⟨n, -, hcn, hl, hr⟩ := coerce_int_range_eq_some 1000 10000 v u hu
    exact ⟨n, hcn, hl, hr⟩

/-- C1 (counterexample): the claim says CONFIG_SCHEMA rejects a
configuration with min_brightness > max_brightness or min_color_temp >
max_color_temp; here is a configuration with both inversions (90 > 10 and
9000 > 2000) that CONFIG_SCHEMA accepts. -/
theorem min_max_not_cross_checked :
    lookupKey CONF_MIN_BRIGHTNESS badBoundsSection = some (.jint 90) ∧
    lookupKey CONF_MAX_BRIGHTNESS badBoundsSection = some (.jint 10) ∧
    lookupKey CONF_MIN_COLOR_TEMP badBoundsSection = some (.jint 9000) ∧
    lookupKey CONF_MAX_COLOR_TEMP badBoundsSection = some (.jint 2000) ∧
    (90 : Int) > 10 ∧ (9000 : Int) > 2000 ∧
    (validateConfig [(DOMAIN, .jdict badBoundsSection)]).isSome = true := by
  exact ⟨rfl, rfl, rfl, rfl, by norm_num, by norm_num, rfl⟩

/-- C1 (witness for the amended claim, at the accepted inverted-bounds
configuration). -/
theorem bounds_validated_independently_witness :
    ∃ n, coerce_int (JValue.jint 90) = some n ∧ 1 ≤ n ∧ n ≤ 100 :=
  (bounds_validated_independently badBoundsSection
    ((validateDomain badBoundsSection).get (by rfl))
    (Option.some_get (by rfl)).symm).1 (JValue.jint 90) rfl

/-- C2: the schema applies `vol.All(vol.Coerce(int), vol.Range(min=1,
max=100))` to min_brightness, max_brightness and sleep_brightness, and
that validator accepts a value exactly when it coerces to an integer of
the closed range [1, 100]; everything else is rejected. -/
theorem brightness_fields_accept_iff :
    (∀ f ∈ domainFields,
      (f.key = CONF_MIN_BRIGHTNESS ∨ f.key = CONF_MAX_BRIGHTNESS ∨
        f.key = CONF_SLEEP_BRIGHTNESS) → f.validator = coerce_int_range 1 100) ∧
    (∀ v, (coerce_int_range 1 100 v).isSome = true ↔
      ∃ n, coerce_int v = some n ∧ 1 ≤ n ∧ n ≤ 100) := by
  constructor
  · intro f hf hk
    simp only [domainFields] at hf
    fin_cases hf <;>
      simp_all [CONF_NAME, CONF_LIGHTS, CONF_DISABLE_BRIGHTNESS_ADJUST,
        CONF_DISABLE_ENTITY, CONF_DISABLE_STATE, CONF_INITIAL_TRANSITION,
        CONF_INTERVAL, CONF_MAX_BRIGHTNESS, CONF_MAX_COLOR_TEMP,
        CONF_MIN_BRIGHTNESS, CONF_MIN_COLOR_TEMP, CONF_ONLY_ONCE,
        CONF_SLEEP_BRIGHTNESS, CONF_SLEEP_COLOR_TEMP, CONF_SLEEP_ENTITY,
        CONF_SLEEP_STATE, CONF_SUNRISE_OFFSET, CONF_SUNRISE_TIME,
        CONF_SUNSET_OFFSET, CONF_SUNSET_TIME, CONF_TRANSITION]
  · intro v
    constructor
    · intro hs
      obtain ⟨u, hu⟩ := Option.isSome_iff_exists.mp hs
      obtain ⟨n, -, hcn, hl, hr⟩ := coerce_int_range_eq_some 1 100 v u hu
      exact ⟨n, hcn, hl, hr⟩
    · rintro ⟨n, hcn, hl, hr⟩
      simp [coerce_int_range, hcn, hl, hr]

/-- C3: the schema applies `vol.All(vol.Coerce(int), vol.Range(min=1000,
max=10000))` to min_color_temp, max_color_temp and sleep_color_temp, and
that validator accepts a value exactly when it coerces to an integer of
the closed range [1000, 10000]; everything else is rejected. -/
theorem color_temp_fields_accept_iff :
    (∀ f ∈ domainFields,
      (f.key = CONF_MIN_COLOR_TEMP ∨ f.key = CONF_MAX_COLOR_TEMP ∨
        f.key = CONF_SLEEP_COLOR_TEMP) →
        f.validator = coerce_int_range 1000 10000) ∧
    (∀ v, (coerce_int_range 1000 10000 v).isSome = true ↔
      ∃ n, coerce_int v = some n ∧ 1000 ≤ n ∧ n ≤ 10000) := by
  constructor
  · intro f hf hk
    simp only [domainFields] at hf
    fin_cases hf <;>
      simp_all [CONF_NAME, CONF_LIGHTS, CONF_DISABLE_BRIGHTNESS_ADJUST,
        CONF_DISABLE_ENTITY, CONF_DISABLE_STATE, CONF_INITIAL_TRANSITION,
        CONF_INTERVAL, CONF_MAX_BRIGHTNESS, CONF_MAX_COLOR_TEMP,
        CONF_MIN_BRIGHTNESS, CONF_MIN_COLOR_TEMP, CONF_ONLY_ONCE,
        CONF_SLEEP_BRIGHTNESS, CONF_SLEEP_COLOR_TEMP, CONF_SLEEP_ENTITY,
        CONF_SLEEP_STATE, CONF_SUNRISE_OFFSET, CONF_SUNRISE_TIME,
        CONF_SUNSET_OFFSET, CONF_SUNSET_TIME, CONF_TRANSITION]
  · intro v
    constructor
    · intro hs
      obtain ⟨u, hu⟩ := Option.isSome_iff_exists.mp hs
      obtain ⟨n, -, hcn, hl, hr⟩ := coerce_int_range_eq_some 1000 10000 v u hu
      exact ⟨n, hcn, hl, hr⟩
    · rintro ⟨n, hcn, hl, hr⟩
      simp [coerce_int_range, hcn, hl, hr]

/-- C4: for every input time and every configuration with ordered bounds,
the computed brightness lies within [min_brightness, max_brightness] and
the computed color temperature within [min_color_temp, max_color_temp]. -/
theorem computed_setting_within_bounds (cfg : CurveConfig) (a : SunAnchors)
    (t : ℚ) (hb : cfg.min_brightness ≤ cfg.max_brightness)
    (hc : cfg.min_color_temp ≤ cfg.max_color_temp) :
    cfg.min_brightness ≤ brightness_pct cfg a t ∧
    brightness_pct cfg a t ≤ cfg.max_brightness ∧
    cfg.min_color_temp ≤ color_temperature cfg a t ∧
    color_temperature cfg a t ≤ cfg.max_color_temp :=
  ⟨le_clampQ _ _ _, clampQ_le _ _ _ hb, le_clampQ _ _ _, clampQ_le _ _ _ hc⟩

/-- C4 (witness, at the spec section 8 scenario configuration and 06:00). -/
theorem computed_setting_within_bounds_witness :
    (1 : ℚ) ≤ brightness_pct ⟨2700, 5500, 1, 100⟩ ⟨0, 12, 24⟩ 6 ∧
    brightness_pct ⟨2700, 5500, 1, 100⟩ ⟨0, 12, 24⟩ 6 ≤ 100 ∧
    (2700 : ℚ) ≤ color_temperature ⟨2700, 5500, 1, 100⟩ ⟨0, 12, 24⟩ 6 ∧
    color_temperature ⟨2700, 5500, 1, 100⟩ ⟨0, 12, 24⟩ 6 ≤ 5500 :=
  computed_setting_within_bounds ⟨2700, 5500, 1, 100⟩ ⟨0, 12, 24⟩ 6
    (by norm_num) (by norm_num)

/-- C5: with ordered bounds and ordered anchors, the computed color
temperature is nondecreasing on times strictly between solar_midnight and
solar_noon, and nonincreasing on times strictly between solar_noon and the
next solar_midnight. -/
theorem color_temperature_monotone_on_halves (cfg : CurveConfig)
    (a : SunAnchors) (t1 t2 : ℚ)
    (hct : cfg.min_color_temp ≤ cfg.max_color_temp)
    (h1 : a.solar_midnight < a.solar_noon)
    (h2 : a.solar_noon < a.next_solar_midnight) :
    (a.solar_midnight < t1 → t1 < t2 → t2 < a.solar_noon →
      color_temperature cfg a t1 ≤ color_temperature cfg a t2) ∧
    (a.solar_noon < t1 → t1 < t2 → t2 < a.next_solar_midnight →
      color_temperature cfg a t2 ≤ color_temperature cfg a t1) := by
  constructor
  · intro hm ht hn
    unfold color_temperature
    rw [if_pos (le_of_lt (lt_trans ht hn)), if_pos (le_of_lt hn)]
    exact clampQ_mono _ _ _ _ (lerp_mono _ _ _ _ _ _ h1 hct (le_of_lt ht))
  · intro hm ht hn
    unfold color_temperature
    rw [if_neg (not_le.mpr (lt_trans hm ht)), if_neg (not_le.mpr hm)]
    exact clampQ_mono _ _ _ _ (lerp_anti _ _ _ _ _ _ h2 hct (le_of_lt ht))

/-- C5 (witness: 03:00 versus 06:00 in the spec scenario configuration). -/
theorem color_temperature_monotone_on_halves_witness :
    color_temperature ⟨2700, 5500, 1, 100⟩ ⟨0, 12, 24⟩ 3 ≤
      color_temperature ⟨2700, 5500, 1, 100⟩ ⟨0, 12, 24⟩ 6 :=
  (color_temperature_monotone_on_halves ⟨2700, 5500, 1, 100⟩ ⟨0, 12, 24⟩ 3 6
    (by norm_num) (by norm_num) (by norm_num)).1 (by norm_num) (by norm_num)
    (by norm_num)

/-- C6: when the interval key is omitted and the domain section validates,
the validated configuration carries the default interval, a duration of 90
seconds. -/
theorem interval_default_filled (doc out : List (String × JValue))
    (hnone : lookupKey CONF_INTERVAL doc = none)
    (hval : validateDomain doc = some out) :
    lookupKey CONF_INTERVAL out = some (.jdur 90) := by
  have hp : processFields domainFields doc = some out := by
    unfold validateDomain at hval
    split at hval
    · exact hval
    · exact Option.noConfusion hval
  exact processFields_default domainFields doc out (by decide) hp
    ⟨CONF_INTERVAL, false, some DEFAULT_INTERVAL, cv_time_period⟩
    (by simp [domainFields]) DEFAULT_INTERVAL rfl hnone

/-- C6 (witness: the empty domain section validates and gets interval 90
seconds). -/
theorem interval_default_filled_witness :
    lookupKey CONF_INTERVAL ((validateDomain []).get (by rfl)) =
      some (JValue.jdur 90) :=
  interval_default_filled [] ((validateDomain []).get (by rfl)) rfl
    (Option.some_get (by rfl)).symm

/-- C7: the `_SUPPORT_OPTS` table associates exactly the four capability
names brightness, color_temp, color and transition with SUPPORT_BRIGHTNESS,
SUPPORT_COLOR_TEMP, SUPPORT_COLOR and SUPPORT_TRANSITION respectively, and
contains no other entries. -/
theorem support_opts_exact_table :
    _SUPPORT_OPTS.length = 4 ∧
    ∀ p : String × Nat, p ∈ _SUPPORT_OPTS ↔
      (p = ("brightness", SUPPORT_BRIGHTNESS) ∨
       p = ("color_temp", SUPPORT_COLOR_TEMP) ∨
       p = ("color", SUPPORT_COLOR) ∨
       p = ("transition", SUPPORT_TRANSITION)) := by
  refine ⟨rfl, fun p => ?_⟩
  simp [_SUPPORT_OPTS]

/-- C8: a configuration document whose top-level keys are all different
from the integration's domain key is accepted by CONFIG_SCHEMA — extra
top-level keys are allowed rather than rejected (vol.ALLOW_EXTRA). -/
theorem config_schema_allows_extra_keys (doc : List (String × JValue))
    (h : ∀ kv ∈ doc, kv.1 ≠ DOMAIN) : (validateConfig doc).isSome = true := by
  unfold validateConfig
  rw [lookupKey_eq_none_of_forall DOMAIN doc h]
  rfl

/-- C8 (witness: a document with two foreign top-level keys). -/
theorem config_schema_allows_extra_keys_witness :
    (validateConfig [("homeassistant", JValue.jdict []),
      ("light", JValue.jbool true)]).isSome = true :=
  config_schema_allows_extra_keys _ (by decide)

/-- C9: a decimal string that parses to an integer in range is accepted by
the numeric field validators and converted to that integer: by the
brightness-range validator when in [1, 100], and by the color-temperature
validator when in [1000, 10000]. -/
theorem decimal_string_accepted_and_converted (s : String) (n : Int)
    (hp : pyIntOfString s = some n) :
    (1 ≤ n ∧ n ≤ 100 → coerce_int_range 1 100 (.jstr s) = some (.jint n)) ∧
    (1000 ≤ n ∧ n ≤ 10000 →
      coerce_int_range 1000 10000 (.jstr s) = some (.jint n)) := by
  constructor <;> intro hr <;> simp [coerce_int_range, coerce_int, hp, hr]

/-- C9 (witness: the string "50" is accepted and converted to 50). -/
theorem decimal_string_accepted_and_converted_witness :
    coerce_int_range 1 100 (JValue.jstr "50") = some (JValue.jint 50) :=
  (decimal_string_accepted_and_converted "50" 50 (by decide)).1 (by decide)

/-- C10: async_setup returns True for every input configuration, creates
the config-entry import task with the domain section's data exactly when
the configuration contains the domain key, and performs no action when the
key is absent. -/
theorem async_setup_returns_true_and_imports (config : List (String × JValue)) :
    (async_setup config).1 = true ∧
    (∀ d, lookupKey DOMAIN config = some d →
      (async_setup config).2 = [SetupAction.createImportFlowTask d]) ∧
    (lookupKey DOMAIN config = none → (async_setup config).2 = []) := by
  cases h : lookupKey DOMAIN config with
  | some d =>
    refine ⟨by simp [async_setup, h], ?_, ?_⟩
    · intro d2 hd2
      cases Option.some.inj hd2
      simp [async_setup, h]
    · intro hn
      exact Option.noConfusion hn
  | none =>
    refine ⟨by simp [async_setup, h], ?_, by simp [async_setup, h]⟩
    intro d2 hd2
    exact Option.noConfusion hd2
